import Mathlib

/-!
Shallow embedding of `src/server.js`: an Express backend with user
signup/login backed by bcrypt password hashing and a Mongo-style document
store, contact-message submission/listing, and a pass-through proxy to an
external prediction service.

The document store is modelled as in-memory lists of records; a mongoose
`findOne({email})` is the first list element matching the email, and the
unique index on `User.email` makes a `save` of a duplicate email fail with
a duplicate-key error. `await`ed persistence steps that can be interleaved
with other requests are made explicit by passing the store state at each
step (the signup handler reads the store once at its pre-check and once at
its save).
-/

/-- Modelled from the spec: the bcrypt library is an external dependency,
absent from the repository source. Per the spec's Credential Hasher
contract, `hash` is a salted one-way transform (same plaintext yields
different outputs for different internal salts, all of which verify), and
`verify` returns true iff the plaintext matches the one the hash was made
from. The internal random salt is made an explicit parameter. -/
structure BHash where
  plain : String
  cost : Nat
  salt : Nat
deriving DecidableEq

/-- Modelled from the spec: `bcrypt.hash(plaintext, costFactor)` with the
internal salt made explicit. -/
def bcryptHash (plaintext : String) (cost : Nat) (salt : Nat) : BHash :=
  ⟨plaintext, cost, salt⟩

/-- Modelled from the spec: `bcrypt.compare(plaintext, hashed)` — true iff
the plaintext is the one the hash was computed from. -/
def bcryptCompare (plaintext : String) (h : BHash) : Bool :=
  plaintext == h.plain

/-- A document of the `User` collection (`userSchema`, server.js lines
28-35): firstName, lastName, email (unique), password (stores the bcrypt
hash). -/
structure UserRec where
  firstName : String
  lastName : String
  email : String
  password : BHash
deriving DecidableEq

/-- A document of the `Contact` collection (`contactSchema`, server.js
lines 38-47): name, email, message, plus mongoose timestamps. -/
structure ContactRec where
  name : String
  email : String
  message : String
  createdAt : Nat
  updatedAt : Nat
deriving DecidableEq

/-- Request body of POST /api/signup. -/
structure SignupPayload where
  firstName : String
  lastName : String
  email : String
  password : String
deriving DecidableEq

/-- Request body of POST /api/login. -/
structure LoginPayload where
  email : String
  password : String
deriving DecidableEq

/-- The six-field payload the predict handler builds from the request body
and posts to the external service (server.js lines 130-137). Each field is
an `Option` because destructuring a missing property yields `undefined`,
which is forwarded as an absent JSON field. -/
structure PredictPayload where
  age : Option String
  sex : Option String
  bmi : Option String
  children : Option String
  smoker : Option String
  region : Option String
deriving DecidableEq

/-- The JSON body of an HTTP response of this server. -/
inductive ResBody where
  | msg (m : String)
  | msgName (m : String) (name : String)
  | contactSeq (cs : List ContactRec)
  | raw (data : String)
deriving DecidableEq

/-- An HTTP response: status code and JSON body. -/
structure HttpResponse where
  status : Nat
  body : ResBody
deriving DecidableEq

/-- Mongoose `Model.findOne({ email })`: the first stored document whose
email equals the given one, if any. -/
def findOneUser (email : String) (store : List UserRec) : Option UserRec :=
  store.find? (fun u => u.email == email)

/-- Mongoose `newUser.save()` under the unique index on `email`
(server.js line 31): appends the document, or fails with a duplicate-key
error when a document with the same email is already stored. -/
def saveUser (store : List UserRec) (u : UserRec) :
    Except Unit (List UserRec) :=
  if store.any (fun v => v.email == u.email) then .error ()
  else .ok (store ++ [u])

/-- POST /api/signup (server.js lines 75-99). `store0` is the Users
collection as seen by the `findOne` pre-check, `store1` as seen by the
`save` (they differ only when another request wrote in between; a
single-threaded call passes the same list twice). `salt` is bcrypt's
internal salt for this call. Returns the response and the resulting Users
collection. -/
def signup (store0 store1 : List UserRec) (p : SignupPayload) (salt : Nat) :
    HttpResponse × List UserRec :=
  match findOneUser p.email store0 with
  | some _ => (⟨400, .msg "User already exists"⟩, store1)
  | none =>
    let hashedPassword := bcryptHash p.password 10 salt
    let newUser : UserRec :=
      ⟨p.firstName, p.lastName, p.email, hashedPassword⟩
    match saveUser store1 newUser with
    | .ok store2 => (⟨201, .msg "User registered successfully"⟩, store2)
    | .error _ => (⟨500, .msg "Error registering user."⟩, store1)

/-- POST /api/login (server.js lines 102-122): look the user up by email;
absent → 401; stored hash does not match → 401 with the same body;
match → 200 with the user's first name. Reads the store only. -/
def login (store : List UserRec) (p : LoginPayload) : HttpResponse :=
  match findOneUser p.email store with
  | none => ⟨401, .msg "Invalid email or password"⟩
  | some user =>
    if bcryptCompare p.password user.password then
      ⟨200, .msgName "Login successful" user.firstName⟩
    else
      ⟨401, .msg "Invalid email or password"⟩

/-- POST /api/contact (server.js lines 50-61): persist a new Contact with
mongoose-assigned timestamps (`now`) and confirm with 201. -/
def contactSubmit (contacts : List ContactRec)
    (name email message : String) (now : Nat) :
    HttpResponse × List ContactRec :=
  (⟨201, .msg "Contact message saved successfully."⟩,
   contacts ++ [⟨name, email, message, now, now⟩])

/-- GET /api/contact (server.js lines 64-72): return every Contact. -/
def contactGetAll (contacts : List ContactRec) : HttpResponse :=
  ⟨200, .contactSeq contacts⟩

/-- The incoming JSON request body of POST /predict, as key/value pairs. -/
def lookupField (k : String) (body : List (String × String)) :
    Option String :=
  (body.find? (fun kv => kv.1 == k)).map (fun kv => kv.2)

/-- The payload the predict handler forwards: exactly the six destructured
fields `{ age, sex, bmi, children, smoker, region }` of the request body
(server.js lines 127-137). -/
def forwardedPayload (body : List (String × String)) : PredictPayload :=
  ⟨lookupField "age" body, lookupField "sex" body, lookupField "bmi" body,
   lookupField "children" body, lookupField "smoker" body,
   lookupField "region" body⟩

/-- POST /predict (server.js lines 125-145). `ext` is the external
prediction service: for a posted payload it either returns a response body
(axios resolves, only on a 2xx upstream status) or fails (network failure,
timeout, or non-success upstream status make axios reject). On success the
upstream body is relayed verbatim with the default status 200; on failure
the handler responds 500 with a generic message. -/
def predict (body : List (String × String))
    (ext : PredictPayload → Except Unit String) : HttpResponse :=
  match ext (forwardedPayload body) with
  | .ok data => ⟨200, .raw data⟩
  | .error _ => ⟨500, .msg "Error processing prediction request"⟩

/-- The whole persistent state: the two independent collections. -/
structure SysState where
  users : List UserRec
  contacts : List ContactRec
deriving DecidableEq

/-- One incoming request, together with the data the environment supplies
for it (timestamps, bcrypt salt, predict body). -/
inductive Req where
  | contactPost (name email message : String) (now : Nat)
  | contactGet
  | signupPost (p : SignupPayload) (salt : Nat)
  | loginPost (p : LoginPayload)
  | predictPost (body : List (String × String))
deriving DecidableEq

/-- The state transition of one request handled on its own: the signup
handler sees the same store at pre-check and save; every other endpoint
either appends a Contact or leaves the state untouched. -/
def step (r : Req) (s : SysState) : SysState :=
  match r with
  | .contactPost n e m now =>
    { s with contacts := (contactSubmit s.contacts n e m now).2 }
  | .contactGet => s
  | .signupPost p salt => { s with users := (signup s.users s.users p salt).2 }
  | .loginPost _ => s
  | .predictPost _ => s

/-! Helper lemmas about the store primitives. -/

/-- A `findOne` miss means no stored user has the email. -/
theorem findOneUser_eq_none_iff (e : String) (store : List UserRec) :
    findOneUser e store = none ↔ ∀ u ∈ store, u.email ≠ e := by
  simp [findOneUser, List.find?_eq_none]

/-- A `findOne` hit is a member of the store. -/
theorem findOneUser_some_mem {e : String} {store : List UserRec}
    {u : UserRec} (h : findOneUser e store = some u) : u ∈ store :=
  List.mem_of_find?_eq_some h

/-- A `findOne` hit has the looked-up email. -/
theorem findOneUser_some_email {e : String} {store : List UserRec}
    {u : UserRec} (h : findOneUser e store = some u) : u.email = e := by
  have := List.find?_some h
  simpa using this

/-- Saving a user whose email is fresh appends it to the store. -/
theorem saveUser_fresh {store : List UserRec} {u : UserRec}
    (h : ∀ v ∈ store, v.email ≠ u.email) :
    saveUser store u = .ok (store ++ [u]) := by
  have hany : store.any (fun v => v.email == u.email) = false := by
    rw [List.any_eq_false]
    intro v hv
    simpa using h v hv
  simp [saveUser, hany]

/-- Saving a user whose email is already stored fails with the
duplicate-key error. -/
theorem saveUser_dup {store : List UserRec} {u : UserRec}
    (h : ∃ v ∈ store, v.email = u.email) :
    saveUser store u = .error () := by
  rcases h with ⟨v, hv, he⟩
  have hany : store.any (fun v => v.email == u.email) = true :=
    List.any_eq_true.mpr ⟨v, hv, by simpa using he⟩
  simp [saveUser, hany]

/-- C1: login responds 200 iff a stored User has exactly the supplied
email and the supplied password verifies against that record's stored
hash; in every other case the response is 401 with the InvalidCredentials
body. The store invariant of unique emails is assumed. -/
theorem login_succeeds_iff_valid_credentials (store : List UserRec)
    (p : LoginPayload) (hnd : (store.map UserRec.email).Nodup) :
    ((login store p).status = 200 ↔
      ∃ u ∈ store, u.email = p.email ∧
        bcryptCompare p.password u.password = true)
    ∧ ((login store p).status ≠ 200 →
      login store p = ⟨401, ResBody.msg "Invalid email or password"⟩) := by
  cases hf : findOneUser p.email store with
  | none =>
    constructor
    · constructor
      · intro h
        simp [login, hf] at h
      · rintro ⟨u, hu, he, _⟩
        exact absurd he ((findOneUser_eq_none_iff _ _).mp hf u hu)
    · intro _
      simp [login, hf]
  | some u =>
    have hmem := findOneUser_some_mem hf
    have hemail := findOneUser_some_email hf
    cases hc : bcryptCompare p.password u.password with
    | true =>
      constructor
      · constructor
        · intro _
          exact ⟨u, hmem, hemail, hc⟩
        · intro _
          simp [login, hf, hc]
      · intro h
        exact absurd (by simp [login, hf, hc]) h
    | false =>
      constructor
      · constructor
        · intro h
          simp [login, hf, hc] at h
        · rintro ⟨v, hv, hve, hvc⟩
          have hvu : v = u :=
            List.inj_on_of_nodup_map hnd hv hmem (by rw [hve, hemail])
          rw [hvu, hc] at hvc
          exact absurd hvc (by decide)
      · intro _
        simp [login, hf, hc]

/-- Witness for C1 at a concrete one-user store with the right password. -/
theorem login_succeeds_iff_valid_credentials_witness :
    (login [⟨"A", "B", "a@x.com", bcryptHash "pw" 10 0⟩]
      ⟨"a@x.com", "pw"⟩).status = 200 :=
  (login_succeeds_iff_valid_credentials
      [⟨"A", "B", "a@x.com", bcryptHash "pw" 10 0⟩] ⟨"a@x.com", "pw"⟩
      (by decide)).1.mpr
    ⟨⟨"A", "B", "a@x.com", bcryptHash "pw" 10 0⟩, by decide, rfl, by decide⟩

/-- C2: a signup whose email is already stored responds 400 with the
DuplicateAccount body and writes nothing; a signup with a fresh email
responds 201 and appends exactly one User record. -/
theorem signup_duplicate_rejected_first_succeeds (store : List UserRec)
    (p : SignupPayload) (salt : Nat) :
    ((∃ u ∈ store, u.email = p.email) →
      signup store store p salt =
        (⟨400, ResBody.msg "User already exists"⟩, store))
    ∧ ((∀ u ∈ store, u.email ≠ p.email) →
      signup store store p salt =
        (⟨201, ResBody.msg "User registered successfully"⟩,
         store ++
           [⟨p.firstName, p.lastName, p.email,
             bcryptHash p.password 10 salt⟩])) := by
  constructor
  · rintro ⟨u, hu, he⟩
    cases hf : findOneUser p.email store with
    | none => exact absurd he ((findOneUser_eq_none_iff _ _).mp hf u hu)
    | some v => simp [signup, hf]
  · intro h
    have hf : findOneUser p.email store = none :=
      (findOneUser_eq_none_iff _ _).mpr h
    have hs := saveUser_fresh
      (u := ⟨p.firstName, p.lastName, p.email,
             bcryptHash p.password 10 salt⟩) h
    simp [signup, hf, hs]

/-- Witness for C2: first registration on the empty store succeeds. -/
theorem signup_duplicate_rejected_first_succeeds_witness :
    (∀ u ∈ ([] : List UserRec), u.email ≠ "a@x.com")
    ∧ signup [] [] ⟨"A", "B", "a@x.com", "pw1"⟩ 0 =
        (⟨201, ResBody.msg "User registered successfully"⟩,
         [⟨"A", "B", "a@x.com", bcryptHash "pw1" 10 0⟩]) :=
  ⟨by simp, (signup_duplicate_rejected_first_succeeds []
      ⟨"A", "B", "a@x.com", "pw1"⟩ 0).2 (by simp)⟩

/-- C4: the 401 response for an unknown email and the 401 response for a
known email with a non-matching password are the same response, so the
two failure causes are indistinguishable to the caller. -/
theorem login_failures_indistinguishable (storeA storeB : List UserRec)
    (e1 pw1 e2 pw2 : String) (u : UserRec)
    (h1 : findOneUser e1 storeA = none)
    (h2 : findOneUser e2 storeB = some u)
    (h3 : bcryptCompare pw2 u.password = false) :
    login storeA ⟨e1, pw1⟩ = login storeB ⟨e2, pw2⟩
    ∧ login storeA ⟨e1, pw1⟩ =
        ⟨401, ResBody.msg "Invalid email or password"⟩ := by
  have ha : login storeA ⟨e1, pw1⟩ =
      ⟨401, ResBody.msg "Invalid email or password"⟩ := by
    simp [login, h1]
  have hb : login storeB ⟨e2, pw2⟩ =
      ⟨401, ResBody.msg "Invalid email or password"⟩ := by
    simp [login, h2, h3]
  exact ⟨ha.trans hb.symm, ha⟩

/-- Witness for C4: unknown email against the empty store versus wrong
password against a one-user store produce equal responses. -/
theorem login_failures_indistinguishable_witness :
    findOneUser "a@x.com" [] = none
    ∧ login [] ⟨"a@x.com", "z"⟩ =
        login [⟨"A", "B", "b@x.com", bcryptHash "pw" 10 0⟩]
          ⟨"b@x.com", "wrong"⟩ :=
  ⟨rfl, (login_failures_indistinguishable []
      [⟨"A", "B", "b@x.com", bcryptHash "pw" 10 0⟩]
      "a@x.com" "z" "b@x.com" "wrong"
      ⟨"A", "B", "b@x.com", bcryptHash "pw" 10 0⟩
      rfl (by decide) (by decide)).1⟩

/-- C5: a successful signup responds 201 and persists a User carrying the
supplied firstName, lastName and email, with the password field holding
the cost-10 hash of the supplied plaintext, not the plaintext. -/
theorem signup_persists_hashed_user (store : List UserRec)
    (p : SignupPayload) (salt : Nat)
    (hfresh : findOneUser p.email store = none) :
    (signup store store p salt).1.status = 201
    ∧ (signup store store p salt).2 =
        store ++
          [⟨p.firstName, p.lastName, p.email,
            bcryptHash p.password 10 salt⟩] := by
  have h := (findOneUser_eq_none_iff _ _).mp hfresh
  have hs := saveUser_fresh
    (u := ⟨p.firstName, p.lastName, p.email,
           bcryptHash p.password 10 salt⟩) h
  simp [signup, hfresh, hs]

/-- Witness for C5 at the empty store. -/
theorem signup_persists_hashed_user_witness :
    findOneUser "a@x.com" ([] : List UserRec) = none
    ∧ (signup [] [] ⟨"A", "B", "a@x.com", "pw1"⟩ 7).2 =
        [⟨"A", "B", "a@x.com", bcryptHash "pw1" 10 7⟩] :=
  ⟨rfl, (signup_persists_hashed_user [] ⟨"A", "B", "a@x.com", "pw1"⟩ 7
      rfl).2⟩

/-- C3: the round-trip of the modelled bcrypt primitives — verifying a
password against its own cost-10 hash succeeds for any internal salt,
verifying against the hash of a different password fails — and every User
record the signup handler adds carries a cost-10 hash of the submitted
password. -/
theorem bcrypt_roundtrip_distinct_and_cost_ten :
    (∀ (p : String) (s : Nat),
      bcryptCompare p (bcryptHash p 10 s) = true)
    ∧ (∀ (p q : String) (s : Nat), p ≠ q →
      bcryptCompare p (bcryptHash q 10 s) = false)
    ∧ (∀ (store : List UserRec) (pl : SignupPayload) (salt : Nat)
        (u : UserRec), u ∈ (signup store store pl salt).2 →
        u ∈ store ∨ u.password = bcryptHash pl.password 10 salt) := by
  refine ⟨?_, ?_, ?_⟩
  · intro p s
    simp [bcryptCompare, bcryptHash]
  · intro p q s hpq
    simpa [bcryptCompare, bcryptHash] using hpq
  · intro store pl salt u hu
    cases hf : findOneUser pl.email store with
    | some v =>
      rw [show (signup store store pl salt).2 = store by simp [signup, hf]]
        at hu
      exact Or.inl hu
    | none =>
      cases hs : saveUser store
          ⟨pl.firstName, pl.lastName, pl.email,
           bcryptHash pl.password 10 salt⟩ with
      | error e =>
        rw [show (signup store store pl salt).2 = store by
          simp [signup, hf, hs]] at hu
        exact Or.inl hu
      | ok s2 =>
        rw [show (signup store store pl salt).2 = s2 by
          simp [signup, hf, hs]] at hu
        have hsv : s2 = store ++
            [⟨pl.firstName, pl.lastName, pl.email,
              bcryptHash pl.password 10 salt⟩] := by
          revert hs
          unfold saveUser
          split
          · intro hs
            cases hs
          · intro hs
            exact (Except.ok.inj hs).symm
        rw [hsv] at hu
        rcases List.mem_append.mp hu with h | h
        · exact Or.inl h
        · rcases List.mem_singleton.mp h with rfl
          exact Or.inr rfl

/-- Witness for C3: two distinct concrete passwords fail to cross-verify. -/
theorem bcrypt_roundtrip_distinct_and_cost_ten_witness :
    ("a" : String) ≠ "b"
    ∧ bcryptCompare "a" (bcryptHash "b" 10 0) = false :=
  ⟨by decide, bcrypt_roundtrip_distinct_and_cost_ten.2.1 "a" "b" 0
    (by decide)⟩

/-- C6: a successful contact submission followed by listing yields a
sequence containing a Contact matching the submitted name, email and
message. -/
theorem contact_submit_then_listed (contacts : List ContactRec)
    (n e m : String) (now : Nat) :
    (contactSubmit contacts n e m now).1 =
      ⟨201, ResBody.msg "Contact message saved successfully."⟩
    ∧ ∃ cs, contactGetAll (contactSubmit contacts n e m now).2 =
        ⟨200, ResBody.contactSeq cs⟩
        ∧ ∃ c ∈ cs, c.name = n ∧ c.email = e ∧ c.message = m := by
  refine ⟨rfl, (contactSubmit contacts n e m now).2, rfl,
    ⟨n, e, m, now, now⟩, ?_, rfl, rfl, rfl⟩
  simp [contactSubmit]

/-- C7: the predict handler consults the external service exactly at the
six destructured fields of the request body, relays a successful upstream
body verbatim with status 200, and maps any upstream failure to 500 with
the generic message. -/
theorem predict_forwards_six_fields_and_maps_failure
    (body : List (String × String))
    (ext : PredictPayload → Except Unit String) :
    (forwardedPayload body =
      ⟨lookupField "age" body, lookupField "sex" body,
       lookupField "bmi" body, lookupField "children" body,
       lookupField "smoker" body, lookupField "region" body⟩)
    ∧ (∀ d, ext (forwardedPayload body) = .ok d →
        predict body ext = ⟨200, ResBody.raw d⟩)
    ∧ (∀ er, ext (forwardedPayload body) = .error er →
        predict body ext =
          ⟨500, ResBody.msg "Error processing prediction request"⟩) := by
  refine ⟨rfl, ?_, ?_⟩ <;> intro x hx <;> simp [predict, hx]

/-- Witness for C7: a concrete body and an external service answering
"7" produce the 200 relay. -/
theorem predict_forwards_six_fields_and_maps_failure_witness :
    (fun _ : PredictPayload => (Except.ok "7" : Except Unit String))
        (forwardedPayload [("age", "30")]) = Except.ok "7"
    ∧ predict [("age", "30")] (fun _ => Except.ok "7") =
        ⟨200, ResBody.raw "7"⟩ :=
  ⟨rfl, (predict_forwards_six_fields_and_maps_failure [("age", "30")]
    (fun _ => Except.ok "7")).2.1 "7" rfl⟩

/-- C8 counterexample: when the pre-check misses a concurrent registration
(empty store at `findOne`, the raced user present at `save`), the
duplicate-key failure of the insert is answered with 500 and the generic
registration error body, not with the DuplicateAccount 400 response. -/
theorem signup_race_dup_key_not_400 :
    (signup [] [⟨"X", "Y", "a@x.com", bcryptHash "pw" 10 0⟩]
        ⟨"A", "B", "a@x.com", "pw1"⟩ 1).1 ≠
      ⟨400, ResBody.msg "User already exists"⟩
    ∧ (signup [] [⟨"X", "Y", "a@x.com", bcryptHash "pw" 10 0⟩]
        ⟨"A", "B", "a@x.com", "pw1"⟩ 1).1 =
      ⟨500, ResBody.msg "Error registering user."⟩ := by
  decide

/-- C8 amended: a duplicate-key error at insert time (pre-check passed,
but a user with the email is stored by save time) is caught by the generic
handler and answered with 500 and body "Error registering user.", leaving
the store as the save found it; it is not mapped to the 400
DuplicateAccount outcome. -/
theorem signup_race_dup_key_generic_500 (store0 store1 : List UserRec)
    (p : SignupPayload) (salt : Nat)
    (h0 : findOneUser p.email store0 = none)
    (h1 : ∃ u ∈ store1, u.email = p.email) :
    signup store0 store1 p salt =
      (⟨500, ResBody.msg "Error registering user."⟩, store1) := by
  have hs := saveUser_dup
    (u := ⟨p.firstName, p.lastName, p.email,
           bcryptHash p.password 10 salt⟩) h1
  simp [signup, h0, hs]

/-- Witness for the amended C8 at a concrete raced store. -/
theorem signup_race_dup_key_generic_500_witness :
    findOneUser "a@x.com" [] = none
    ∧ (∃ u ∈ [(⟨"X", "Y", "a@x.com", bcryptHash "pw" 10 0⟩ : UserRec)],
        UserRec.email u = "a@x.com")
    ∧ signup [] [⟨"X", "Y", "a@x.com", bcryptHash "pw" 10 0⟩]
        ⟨"A", "B", "a@x.com", "pw1"⟩ 1 =
      (⟨500, ResBody.msg "Error registering user."⟩,
       [⟨"X", "Y", "a@x.com", bcryptHash "pw" 10 0⟩]) :=
  ⟨rfl, by decide,
   signup_race_dup_key_generic_500 []
     [⟨"X", "Y", "a@x.com", bcryptHash "pw" 10 0⟩]
     ⟨"A", "B", "a@x.com", "pw1"⟩ 1 rfl (by decide)⟩

/-- A successful or failed save never removes a stored user. -/
theorem signup_keeps_member {store0 store1 : List UserRec}
    {p : SignupPayload} {salt : Nat} {u : UserRec} (hu : u ∈ store1) :
    u ∈ (signup store0 store1 p salt).2 := by
  cases hf : findOneUser p.email store0 with
  | some v =>
    rw [show (signup store0 store1 p salt).2 = store1 by simp [signup, hf]]
    exact hu
  | none =>
    cases hs : saveUser store1
        ⟨p.firstName, p.lastName, p.email,
         bcryptHash p.password 10 salt⟩ with
    | error e =>
      rw [show (signup store0 store1 p salt).2 = store1 by
        simp [signup, hf, hs]]
      exact hu
    | ok s2 =>
      rw [show (signup store0 store1 p salt).2 = s2 by
        simp [signup, hf, hs]]
      have hsv : s2 = store1 ++
          [⟨p.firstName, p.lastName, p.email,
            bcryptHash p.password 10 salt⟩] := by
        revert hs
        unfold saveUser
        split
        · intro hs
          cases hs
        · intro hs
          exact (Except.ok.inj hs).symm
      rw [hsv]
      exact List.mem_append_left _ hu

/-- C9: no request ever updates or deletes a stored User: every request's
state transition keeps every previously stored User record, unmodified, a
member of the Users collection. -/
theorem users_preserved_by_every_request (r : Req) (s : SysState)
    (u : UserRec) (hu : u ∈ s.users) : u ∈ (step r s).users := by
  cases r with
  | contactPost n e m now => simpa [step] using hu
  | contactGet => simpa [step] using hu
  | signupPost p salt =>
    simp only [step]
    exact signup_keeps_member hu
  | loginPost p => simpa [step] using hu
  | predictPost body => simpa [step] using hu

/-- Witness for C9: a stored user survives a signup request that reuses
the email. -/
theorem users_preserved_by_every_request_witness :
    (⟨"A", "B", "a@x.com", bcryptHash "pw" 10 0⟩ : UserRec) ∈
      (SysState.mk [⟨"A", "B", "a@x.com", bcryptHash "pw" 10 0⟩] []).users
    ∧ (⟨"A", "B", "a@x.com", bcryptHash "pw" 10 0⟩ : UserRec) ∈
      (step (.signupPost ⟨"C", "D", "a@x.com", "p2"⟩ 3)
        ⟨[⟨"A", "B", "a@x.com", bcryptHash "pw" 10 0⟩], []⟩).users :=
  ⟨by decide,
   users_preserved_by_every_request
     (.signupPost ⟨"C", "D", "a@x.com", "p2"⟩ 3)
     ⟨[⟨"A", "B", "a@x.com", bcryptHash "pw" 10 0⟩], []⟩
     ⟨"A", "B", "a@x.com", bcryptHash "pw" 10 0⟩ (by decide)⟩

/-- C10: the forwarded payload is built from the six named fields only, so
two request bodies agreeing on those six fields forward the identical
payload and receive the identical response; extra fields never reach the
external service. -/
theorem predict_drops_extra_fields (b1 b2 : List (String × String))
    (ext : PredictPayload → Except Unit String)
    (hage : lookupField "age" b1 = lookupField "age" b2)
    (hsex : lookupField "sex" b1 = lookupField "sex" b2)
    (hbmi : lookupField "bmi" b1 = lookupField "bmi" b2)
    (hch : lookupField "children" b1 = lookupField "children" b2)
    (hsm : lookupField "smoker" b1 = lookupField "smoker" b2)
    (hre : lookupField "region" b1 = lookupField "region" b2) :
    forwardedPayload b1 = forwardedPayload b2
    ∧ predict b1 ext = predict b2 ext := by
  have hp : forwardedPayload b1 = forwardedPayload b2 := by
    simp [forwardedPayload, hage, hsex, hbmi, hch, hsm, hre]
  refine ⟨hp, ?_⟩
  simp [predict, hp]

/-- Witness for C10: a body with an extra field forwards the same payload
as the body without it. -/
theorem predict_drops_extra_fields_witness :
    lookupField "age" [("age", "30"), ("extra", "x")] =
      lookupField "age" [("age", "30")]
    ∧ forwardedPayload [("age", "30"), ("extra", "x")] =
        forwardedPayload [("age", "30")] :=
  ⟨by decide,
   (predict_drops_extra_fields [("age", "30"), ("extra", "x")]
     [("age", "30")] (fun _ => Except.error ())
     (by decide) (by decide) (by decide) (by decide) (by decide)
     (by decide)).1⟩
